import Mathlib

/-!
Verification development for a small Python development HTTP server
(`src/server.py`) that serves a single-page-application bundle from a
document root, rewriting missing paths to the root `index.html`.

Strings are modelled as `List Char` (ASCII; the server's paths and header
names are ASCII).  Filesystem state is an abstract record of predicates
`isFile` / `isDir` and a byte-content function, keyed by absolute path
strings, mirroring `os.path.exists` / `os.path.isfile` / `os.path.isdir`
at resolution time.
-/

namespace PWAServer

/-- Paths and header text as character lists (ASCII). -/
abbrev Str := List Char

/-- Hexadecimal digit test, as accepted by Python's percent-escape decoding. -/
def isHexDigitC (c : Char) : Bool :=
  c.isDigit || ('a' ≤ c && c ≤ 'f') || ('A' ≤ c && c ≤ 'F')

/-- Numeric value of a hexadecimal digit. -/
def hexValC (c : Char) : Nat :=
  if c.isDigit then c.toNat - 48
  else if 'a' ≤ c then c.toNat - 87
  else c.toNat - 55

/-- Python's `urllib.parse.unquote` on ASCII input: a `%` followed by two
hex digits decodes to that byte; a malformed escape (non-hex digits, or
fewer than two following characters) is passed through literally and never
raises. -/
def unquote : Str → Str
  | [] => []
  | '%' :: a :: b :: rest =>
    if isHexDigitC a && isHexDigitC b then
      Char.ofNat (16 * hexValC a + hexValC b) :: unquote rest
    else
      '%' :: unquote (a :: b :: rest)
  | '%' :: a :: [] => '%' :: unquote [a]
  | c :: rest => c :: unquote rest

/-- Everything strictly before the first occurrence of `c`. -/
def cutAtChar (c : Char) (s : Str) : Str :=
  s.takeWhile (fun x => x ≠ c)

/-- Drop a `;params` suffix from the final `/`-segment, as
`urllib.parse.urlparse` does when producing `.path`. -/
def dropLastSegParams (s : Str) : Str :=
  let segs := s.splitOn '/'
  List.intercalate ['/'] (segs.dropLast ++ [cutAtChar ';' (segs.getLastD [])])

/-- The `.path` component of `urlparse(self.path)` for a request target:
the text before any `#` fragment or `?` query, with `;params` removed from
the last segment.  (Scheme/netloc parsing of `//`-prefixed targets is not
modelled; HTTP request targets are origin-form paths.) -/
def urlparsePath (raw : Str) : Str :=
  dropLastSegParams (cutAtChar '?' (cutAtChar '#' raw))

/-- The relative path `do_GET` computes from the raw request target:
parse out the URL path, percent-decode it, strip one leading `/`, and
default an empty path to `index.html` (src/server.py lines 21-30). -/
def effectiveRel (raw : Str) : Str :=
  let path0 := unquote (urlparsePath raw)
  let path1 := if path0.head? = some '/' then path0.tail else path0
  if path1 = [] then "index.html".data else path1

/-- `os.path.join(root, p)`: an absolute second argument discards the
first; otherwise the two are joined with a separator. -/
def osJoin (root p : Str) : Str :=
  if p.head? = some '/' then p else root ++ '/' :: p

/-- `full_path = os.path.join(os.getcwd(), path)` for a request
(src/server.py line 33), with `root` standing for the process working
directory (the document root). -/
def fullOf (root raw : Str) : Str :=
  osJoin root (effectiveRel raw)

/-- Filesystem state at resolution time: which absolute paths are regular
files, which are directories, and file contents as bytes. -/
structure FS where
  isFile : Str → Bool
  isDir : Str → Bool
  content : Str → List Nat

/-- `os.path.exists`: true for files and directories. -/
def fsExists (fs : FS) (p : Str) : Bool :=
  fs.isFile p || fs.isDir p

/-- `index_path = os.path.join(full_path, 'index.html')` for an absolute
directory path (src/server.py line 43). -/
def idxOf (full : Str) : Str :=
  full ++ '/' :: "index.html".data

/-- Suffix test, Python's `str.endswith`. -/
def endsWithL (p suf : Str) : Bool :=
  suf.isSuffixOf p

/-- Headers appended by `SPAHandler.end_headers` (src/server.py lines
55-67): cache-busting headers when `self.path` ends in `/sw.js`, and a
manifest `Content-Type` when `self.path` ends in `/manifest.json`.  The
tests run on `self.path`, the raw request string (query included) or the
rewritten `/index.html`. -/
def endHeadersExtra (selfPath : Str) : List (Str × Str) :=
  (if endsWithL selfPath "/sw.js".data then
    [("Cache-Control".data, "no-cache, no-store, must-revalidate".data),
     ("Pragma".data, "no-cache".data),
     ("Expires".data, "0".data)]
  else []) ++
  (if endsWithL selfPath "/manifest.json".data then
    [("Content-Type".data, "application/manifest+json".data)]
  else [])

/-- Modelled from the spec: MIME-type inference is delegated to the
collaborator file server (spec §6); values follow the standard table for
the extensions this repository ships. -/
def guessType (p : Str) : Str :=
  if endsWithL p ".html".data then "text/html".data
  else if endsWithL p ".js".data then "text/javascript".data
  else if endsWithL p ".json".data then "application/json".data
  else if endsWithL p ".png".data then "image/png".data
  else "application/octet-stream".data

/-- An HTTP response: status code, body bytes, and headers in send order. -/
structure Response where
  status : Nat
  body : List Nat
  headers : List (Str × Str)
deriving DecidableEq

/-- Modelled from the spec: the collaborator static file server
(`SimpleHTTPRequestHandler`, spec §6) to which `super().do_GET()`
delegates.  It serves the file named by the effective path under the
document root, or a directory's `index.html`, and otherwise reports
not-found; it sends its inferred `Content-Type` and then calls
`end_headers`, which appends the handler's custom headers
(src/server.py lines 55-67). -/
def superDoGET (root : Str) (fs : FS) (selfPath : Str) : Response :=
  let full := fullOf root selfPath
  let core : Nat × List Nat × Str :=
    if fs.isFile full then (200, fs.content full, guessType full)
    else if fs.isDir full && fs.isFile (idxOf full) then
      (200, fs.content (idxOf full), guessType (idxOf full))
    else (404, [], "text/html".data)
  { status := core.1
    body := core.2.1
    headers := ("Content-type".data, core.2.2) :: endHeadersExtra selfPath }

/-- The value of `self.path` after `SPAHandler.do_GET` has run its routing
decision (src/server.py lines 36-53): the raw request target when the
resolved path is an existing file, or an existing directory whose
`index.html` exists; otherwise the rewritten `/index.html`. -/
def finalSelfPath (root : Str) (fs : FS) (raw : Str) : Str :=
  let full := fullOf root raw
  if fsExists fs full && fs.isFile full then raw
  else if fsExists fs full && fs.isDir full then
    if fsExists fs (idxOf full) then raw
    else "/index.html".data
  else "/index.html".data

/-- `SPAHandler.do_GET`: decide the effective `self.path`, then delegate
to the collaborator file server. -/
def doGET (root : Str) (fs : FS) (raw : Str) : Response :=
  superDoGET root fs (finalSelfPath root fs raw)

/-- Modelled from the spec: the default `do_HEAD` of the collaborator
(spec §6) — same resolution and headers as a default GET on the raw
request target (no SPA rewrite, since only `do_GET` is overridden), but
no body. -/
def doHEAD (root : Str) (fs : FS) (raw : Str) : Response :=
  let r := superDoGET root fs raw
  { status := r.status, body := [], headers := r.headers }

/-- Modelled from the spec: the listener dispatches on the HTTP method
(spec §6); `SPAHandler` overrides only `do_GET`, `HEAD` falls through to
the default file-serving behaviour, and other methods are rejected with
501 by the base handler. -/
def handleRequest (root : Str) (fs : FS) (method raw : Str) : Response :=
  if method = "GET".data then doGET root fs raw
  else if method = "HEAD".data then doHEAD root fs raw
  else { status := 501, body := [], headers := [] }

/-- The spec's route-resolution result datatype (spec §3). -/
inductive RouteResolutionResult where
  | ServeFile (path : Str)
  | ServeIndex (dir : Str)
  | ServeFallback
deriving DecidableEq

/-- The routing decision of `SPAHandler.do_GET` (src/server.py lines
36-53) expressed as the spec's `resolve` contract: which filesystem path
the response will be built from. -/
def resolve (root : Str) (fs : FS) (raw : Str) : RouteResolutionResult :=
  let full := fullOf root raw
  if fsExists fs full && fs.isFile full then .ServeFile full
  else if fsExists fs full && fs.isDir full then
    if fsExists fs (idxOf full) then .ServeIndex full
    else .ServeFallback
  else .ServeFallback

/-- POSIX normalisation of an absolute path's `/`-segments: empty and `.`
segments vanish, `..` pops the previous segment (a no-op at the root). -/
def normSegs : List Str → List Str → List Str
  | [], acc => acc.reverse
  | s :: rest, acc =>
    if s = [] || s = ".".data then normSegs rest acc
    else if s = "..".data then normSegs rest acc.tail
    else normSegs rest (s :: acc)

/-- Normalised segment list of an absolute path. -/
def normAbs (p : Str) : List Str :=
  normSegs (p.splitOn '/') []

/-- Whether the absolute path `p`, after normalisation, stays inside the
document root (segment-wise prefix, so `/a` does not contain `/ab`). -/
def withinRoot (root p : Str) : Bool :=
  List.isPrefixOf (normAbs root) (normAbs p)

/-- Per-connection handler state: the mutable `self.path` field. -/
structure HandlerState where
  path : Str
deriving DecidableEq

/-- One request–response cycle on a connection: the framework sets
`self.path` from the request line (discarding whatever the field held),
`do_GET` runs and possibly rewrites it, and the response is written. -/
def processRequest (root : Str) (fs : FS) (_st : HandlerState) (raw : Str) :
    Response × HandlerState :=
  let st1 : HandlerState := { path := raw }
  let sp := finalSelfPath root fs st1.path
  (superDoGET root fs sp, { path := sp })

/-- A concrete document root used for witnesses. -/
def root0 : Str := "/srv/app".data

/-- A concrete filesystem under `root0` used for witnesses: a root
`index.html`, a service worker, a manifest, an asset, a directory with an
index, an empty directory, a file literally named `%zz`, and a file
reachable from the root only through a `..` segment. -/
def fs0 : FS where
  isFile p :=
    p = "/srv/app/index.html".data ||
    p = "/srv/app/sw.js".data ||
    p = "/srv/app/manifest.json".data ||
    p = "/srv/app/assets/logo.png".data ||
    p = "/srv/app/docs/index.html".data ||
    p = "/srv/app/%zz".data ||
    p = "/srv/app/../secret".data
  isDir p :=
    p = "/srv/app".data ||
    p = "/srv/app/assets".data ||
    p = "/srv/app/docs".data ||
    p = "/srv/app/empty".data
  content p :=
    if p = "/srv/app/index.html".data then [1, 2, 3]
    else if p = "/srv/app/sw.js".data then [4]
    else if p = "/srv/app/manifest.json".data then [5]
    else if p = "/srv/app/assets/logo.png".data then [6]
    else if p = "/srv/app/docs/index.html".data then [7]
    else if p = "/srv/app/%zz".data then [37]
    else if p = "/srv/app/../secret".data then [8]
    else []

/-- A scan for malformed percent-escapes: a `%` not followed by two hex
digits (or followed by fewer than two characters). -/
def containsBadEscape : Str → Bool
  | [] => false
  | '%' :: a :: b :: rest =>
    if isHexDigitC a && isHexDigitC b then containsBadEscape rest else true
  | '%' :: _ :: [] => true
  | ['%'] => true
  | _ :: rest => containsBadEscape rest

/-- C1: for a GET request whose decoded path names neither an existing
regular file nor a directory with an index document under the document
root (and given the root `index.html` exists, as the spec's expected
layout requires), the response body is the root index document's bytes
with status 200. -/
theorem spa_fallback_serves_root_index (root : Str) (fs : FS) (raw : Str)
    (h1 : fs.isFile (fullOf root raw) = false)
    (h2 : fs.isDir (fullOf root raw) = true →
      fsExists fs (idxOf (fullOf root raw)) = false)
    (h3 : fs.isFile (fullOf root "/index.html".data) = true) :
    (doGET root fs raw).status = 200 ∧
    (doGET root fs raw).body = fs.content (fullOf root "/index.html".data) := by
  unfold doGET finalSelfPath
  by_cases hd : fs.isDir (fullOf root raw)
  · have hidx := h2 hd
    simp only [fsExists, Bool.or_eq_false_iff] at hidx
    simp [fsExists, h1, hd, hidx.1, hidx.2, superDoGET, h3]
  · simp [fsExists, h1, hd, superDoGET, h3]

/-- C1 witness: `/settings` does not exist under the concrete root, and
the response is the root index document with status 200. -/
theorem spa_fallback_witness :
    fs0.isFile (fullOf root0 "/settings".data) = false ∧
    (fs0.isDir (fullOf root0 "/settings".data) = true →
      fsExists fs0 (idxOf (fullOf root0 "/settings".data)) = false) ∧
    fs0.isFile (fullOf root0 "/index.html".data) = true ∧
    ((doGET root0 fs0 "/settings".data).status = 200 ∧
     (doGET root0 fs0 "/settings".data).body =
       fs0.content (fullOf root0 "/index.html".data)) :=
  ⟨by decide, by decide, by decide,
    spa_fallback_serves_root_index root0 fs0 "/settings".data
      (by decide) (by decide) (by decide)⟩

/-- C2 counterexample: for the request `/sw.js?v=1` the resolved
filesystem path ends in `sw.js` and the file is served, yet the response
carries no `Cache-Control` header at all — `end_headers` tests
`self.path`, which still holds the query string, so the claim's
"regardless of any query string" fails. -/
theorem sw_cache_header_query_counterexample :
    endsWithL (fullOf root0 "/sw.js?v=1".data) "sw.js".data = true ∧
    doGET root0 fs0 "/sw.js?v=1".data =
      { status := 200, body := [4],
        headers := [("Content-type".data, "text/javascript".data)] } := by
  decide

/-- C2 amended: the `Cache-Control: no-cache, no-store, must-revalidate`
header is sent exactly when `self.path` — the raw request string
including any query, after any rewrite — ends with `/sw.js`; a query
string (or percent-encoding of the suffix) suppresses it. -/
theorem sw_cache_header_amended (root : Str) (fs : FS) (raw : Str)
    (h : endsWithL (finalSelfPath root fs raw) "/sw.js".data = true) :
    ("Cache-Control".data, "no-cache, no-store, must-revalidate".data) ∈
      (doGET root fs raw).headers := by
  unfold doGET superDoGET
  simp [endHeadersExtra, h]

/-- C2 amended witness: a plain `/sw.js` request does carry the
cache-busting header. -/
theorem sw_cache_header_amended_witness :
    endsWithL (finalSelfPath root0 fs0 "/sw.js".data) "/sw.js".data = true ∧
    ("Cache-Control".data, "no-cache, no-store, must-revalidate".data) ∈
      (doGET root0 fs0 "/sw.js".data).headers :=
  ⟨by decide, sw_cache_header_amended root0 fs0 "/sw.js".data (by decide)⟩

/-- C3 counterexample: the response to `GET /` (and in fact every
response) carries no `Access-Control-Allow-Origin` header — its header
list is exactly the collaborator's `Content-type`.  `end_headers` in
src/server.py sends no CORS headers. -/
theorem cors_headers_counterexample :
    doGET root0 fs0 "/".data =
      { status := 200, body := [1, 2, 3],
        headers := [("Content-type".data, "text/html".data)] } := by
  decide

/-- C3 amended: no response ever carries an `Access-Control-Allow-Origin`
header (nor any CORS header): the handler's `end_headers` adds only the
service-worker cache headers and the manifest `Content-Type`. -/
theorem no_cors_headers_ever (root : Str) (fs : FS) (raw : Str) :
    "Access-Control-Allow-Origin".data ∉
      ((doGET root fs raw).headers.map Prod.fst) := by
  unfold doGET superDoGET endHeadersExtra
  by_cases h1 : endsWithL (finalSelfPath root fs raw) "/sw.js".data <;>
    by_cases h2 : endsWithL (finalSelfPath root fs raw) "/manifest.json".data <;>
    simp [h1, h2]

/-- C4 counterexample: for the request `/manifest.json?v=1` the resolved
path ends in `manifest.json` and the manifest file is served, yet the
only `Content-Type` sent is the collaborator's inferred
`application/json` — `end_headers` tests `self.path`, which still holds
the query string. -/
theorem manifest_ctype_query_counterexample :
    endsWithL (fullOf root0 "/manifest.json?v=1".data) "manifest.json".data = true ∧
    doGET root0 fs0 "/manifest.json?v=1".data =
      { status := 200, body := [5],
        headers := [("Content-type".data, "application/json".data)] } := by
  decide

/-- C4 amended: a `Content-Type: application/manifest+json` header is
appended (after the collaborator's inferred `Content-Type`, so it is not
the sole Content-Type header) exactly when `self.path` — the raw request
string including any query, after any rewrite — ends with
`/manifest.json`. -/
theorem manifest_ctype_amended (root : Str) (fs : FS) (raw : Str)
    (h : endsWithL (finalSelfPath root fs raw) "/manifest.json".data = true) :
    ("Content-Type".data, "application/manifest+json".data) ∈
      (doGET root fs raw).headers := by
  unfold doGET superDoGET
  simp [endHeadersExtra, h]

/-- C4 amended witness: a plain `/manifest.json` request does carry the
manifest Content-Type header. -/
theorem manifest_ctype_amended_witness :
    endsWithL (finalSelfPath root0 fs0 "/manifest.json".data)
      "/manifest.json".data = true ∧
    ("Content-Type".data, "application/manifest+json".data) ∈
      (doGET root0 fs0 "/manifest.json".data).headers :=
  ⟨by decide, manifest_ctype_amended root0 fs0 "/manifest.json".data (by decide)⟩

/-- C5: the claim's invariant fails on the code — the request path
`/../secret` resolves (no `..` sanitisation in `do_GET`) to
`/srv/app/../secret`, an existing file outside the document root
`/srv/app`, and the routing decision is `ServeFile` of that path. -/
theorem resolve_escapes_root_on_dotdot :
    resolve root0 fs0 "/../secret".data =
      .ServeFile "/srv/app/../secret".data ∧
    withinRoot root0 "/srv/app/../secret".data = false := by
  decide

/-- C6: a GET request whose decoded path names an existing regular file
under the document root is served verbatim — status 200, the file's
bytes, and no rewrite of `self.path`. -/
theorem existing_file_served_verbatim (root : Str) (fs : FS) (raw : Str)
    (h1 : fs.isFile (fullOf root raw) = true)
    (h2 : withinRoot root (fullOf root raw) = true) :
    (doGET root fs raw).status = 200 ∧
    (doGET root fs raw).body = fs.content (fullOf root raw) ∧
    finalSelfPath root fs raw = raw := by
  unfold doGET finalSelfPath superDoGET
  simp [fsExists, h1]

/-- C6 witness: `/assets/logo.png` exists under the concrete root and is
served byte-for-byte. -/
theorem existing_file_witness :
    fs0.isFile (fullOf root0 "/assets/logo.png".data) = true ∧
    withinRoot root0 (fullOf root0 "/assets/logo.png".data) = true ∧
    ((doGET root0 fs0 "/assets/logo.png".data).status = 200 ∧
     (doGET root0 fs0 "/assets/logo.png".data).body =
       fs0.content (fullOf root0 "/assets/logo.png".data) ∧
     finalSelfPath root0 fs0 "/assets/logo.png".data = "/assets/logo.png".data) :=
  ⟨by decide, by decide,
    existing_file_served_verbatim root0 fs0 "/assets/logo.png".data
      (by decide) (by decide)⟩

/-- C7: a GET request whose decoded path names an existing directory
(whose `index.html` entry, if any, is not itself a directory, and given
the root index document exists) is answered with that directory's
`index.html` when present, and with the root index document otherwise. -/
theorem directory_index_resolution (root : Str) (fs : FS) (raw : Str)
    (h1 : fs.isFile (fullOf root raw) = false)
    (h2 : fs.isDir (fullOf root raw) = true)
    (h3 : fs.isDir (idxOf (fullOf root raw)) = false)
    (h4 : fs.isFile (fullOf root "/index.html".data) = true) :
    (doGET root fs raw).status = 200 ∧
    (doGET root fs raw).body =
      (if fs.isFile (idxOf (fullOf root raw)) then
        fs.content (idxOf (fullOf root raw))
      else fs.content (fullOf root "/index.html".data)) := by
  unfold doGET finalSelfPath superDoGET
  by_cases hi : fs.isFile (idxOf (fullOf root raw))
  · simp [fsExists, h1, h2, h3, hi]
  · simp [fsExists, h1, h2, h3, hi, h4]

/-- C7 witness: `/docs` is a directory with its own `index.html`, which
is served. -/
theorem directory_index_witness :
    fs0.isFile (fullOf root0 "/docs".data) = false ∧
    fs0.isDir (fullOf root0 "/docs".data) = true ∧
    fs0.isDir (idxOf (fullOf root0 "/docs".data)) = false ∧
    fs0.isFile (fullOf root0 "/index.html".data) = true ∧
    ((doGET root0 fs0 "/docs".data).status = 200 ∧
     (doGET root0 fs0 "/docs".data).body =
       (if fs0.isFile (idxOf (fullOf root0 "/docs".data)) then
         fs0.content (idxOf (fullOf root0 "/docs".data))
       else fs0.content (fullOf root0 "/index.html".data))) :=
  ⟨by decide, by decide, by decide, by decide,
    directory_index_resolution root0 fs0 "/docs".data
      (by decide) (by decide) (by decide) (by decide)⟩

/-- C8 counterexample: decoding does not fail closed — `unquote` passes
the malformed escape in `/%zz` through literally, and because a file
literally named `%zz` exists under the root it is served verbatim, so the
path is not "treated as not found" and the fallback response is not
produced. -/
theorem malformed_escape_literal_counterexample :
    containsBadEscape (urlparsePath "/%zz".data) = true ∧
    (doGET root0 fs0 "/%zz".data).body = [37] ∧
    (doGET root0 fs0 "/%zz".data).body ≠
      fs0.content (fullOf root0 "/index.html".data) := by
  decide

/-- C8 amended: a malformed percent-escape never raises — `unquote`
keeps it literally — and when the resulting literal path names no
existing file or directory (and the root index document exists), the
root-index fallback is served with status 200; the handler, being a total
function, does not crash. -/
theorem malformed_escape_fallback_amended (root : Str) (fs : FS) (raw : Str)
    (hm : containsBadEscape (urlparsePath raw) = true)
    (h1 : fsExists fs (fullOf root raw) = false)
    (h2 : fs.isFile (fullOf root "/index.html".data) = true) :
    (doGET root fs raw).status = 200 ∧
    (doGET root fs raw).body = fs.content (fullOf root "/index.html".data) := by
  unfold doGET finalSelfPath superDoGET
  simp only [fsExists, Bool.or_eq_false_iff] at h1
  simp [fsExists, h1.1, h1.2, h2]

/-- C8 amended witness: `/%gg` holds a malformed escape, names nothing,
and yields the root index document. -/
theorem malformed_escape_fallback_witness :
    containsBadEscape (urlparsePath "/%gg".data) = true ∧
    fsExists fs0 (fullOf root0 "/%gg".data) = false ∧
    fs0.isFile (fullOf root0 "/index.html".data) = true ∧
    ((doGET root0 fs0 "/%gg".data).status = 200 ∧
     (doGET root0 fs0 "/%gg".data).body =
       fs0.content (fullOf root0 "/index.html".data)) :=
  ⟨by decide, by decide, by decide,
    malformed_escape_fallback_amended root0 fs0 "/%gg".data
      (by decide) (by decide) (by decide)⟩

/-- C9: a request-response cycle is a pure function of the request path
and the filesystem state — the response is independent of whatever the
handler's `self.path` field held before the request (the framework
overwrites it from the request line), so issuing the same request twice
against an unchanged filesystem yields identical responses. -/
theorem response_deterministic_across_requests (root : Str) (fs : FS)
    (raw : Str) (st1 st2 : HandlerState) :
    (processRequest root fs st1 raw).1 = (processRequest root fs st2 raw).1 ∧
    (processRequest root fs (processRequest root fs st1 raw).2 raw).1 =
      (processRequest root fs st1 raw).1 :=
  ⟨rfl, rfl⟩

/-- C10: the SPA rewrite lives only in `do_GET`; a `HEAD` request takes
the default file-serving path, so when its path names neither an existing
file nor a directory the result is a 404 with an empty body, not the root
index document. -/
theorem head_requests_not_rewritten (root : Str) (fs : FS) (raw : Str)
    (h1 : fs.isFile (fullOf root raw) = false)
    (h2 : fs.isDir (fullOf root raw) = false) :
    (handleRequest root fs "HEAD".data raw).status = 404 ∧
    (handleRequest root fs "HEAD".data raw).body = [] := by
  unfold handleRequest doHEAD superDoGET
  rw [if_neg (by decide), if_pos rfl]
  simp [h1, h2]

/-- C10 witness: `HEAD /settings` yields a 404, where `GET /settings`
would have been rewritten to the root index document. -/
theorem head_requests_witness :
    fs0.isFile (fullOf root0 "/settings".data) = false ∧
    fs0.isDir (fullOf root0 "/settings".data) = false ∧
    ((handleRequest root0 fs0 "HEAD".data "/settings".data).status = 404 ∧
     (handleRequest root0 fs0 "HEAD".data "/settings".data).body = []) :=
  ⟨by decide, by decide,
    head_requests_not_rewritten root0 fs0 "/settings".data
      (by decide) (by decide)⟩

end PWAServer
